import Mathlib

/-!
Shallow embedding of the inklings_prototype core (src/app/models.py):
the friendship graph (UserProfile, FriendRequest), the visibility policy
engine (PrivacySettingsModel.is_viewable_by / get_privacy_filter), the
link graph (Link, related_nodes_filter) and similarity search
(EmbeddableModel.get_similar_objects), together with theorems settling
the specification claims about them.

Users and rows are identified by natural-number primary keys.  Django
query state (the friendship M2M table, pending FriendRequest rows, node
tables and the Link table) is an explicit `World` record.  Django Q
objects become Bool-valued predicates; `raise` becomes `Except.error`.
-/

namespace Inklings

/-- The concrete node kinds registered in the content-type table
(`app_label='app'`): the three content models plus Link itself. -/
inductive Kind where
  | memo
  | reference
  | inkling
  | link
deriving DecidableEq, Repr

/-- A row of one of the content-node tables (Memo / Reference / Inkling):
pk, owner FK, privacy_setting CharField, and which table it lives in. -/
structure NodeRec where
  id : Nat
  user : Nat
  privacy_setting : String
  kind : Kind
deriving DecidableEq, Repr

/-- A row of the Link table: pk, the two generic foreign keys
(content type + object id for source and target), plus the fields Link
inherits from UserOwnedModel / PrivacySettingsModel. -/
structure LinkRec where
  id : Nat
  source_content_type : Kind
  source_object_id : Nat
  target_content_type : Kind
  target_object_id : Nat
  user : Nat
  privacy_setting : String
deriving DecidableEq, Repr

/-- A generic node reference: (content type, object id). -/
structure NodeRef where
  kind : Kind
  id : Nat
deriving DecidableEq, Repr

/-- Database state: the symmetrical friends M2M rows (Django stores the
edge in both directions), the content-node tables, the Link table and
the pending FriendRequest rows (sender, receiver). -/
structure World where
  friends : List (Nat × Nat)
  nodes : List NodeRec
  links : List LinkRec
  requests : List (Nat × Nat)
deriving Repr

/-- `profile.friends.all()`: the friend rows whose first component is
the given profile. -/
def friendsOf (w : World) (a : Nat) : List Nat :=
  (w.friends.filter (fun p => p.1 == a)).map Prod.snd

namespace UserProfile

/-- `UserProfile.is_friends_with`: `friend_profile in self.friends.all()`. -/
def is_friends_with (w : World) (self other : Nat) : Bool :=
  (friendsOf w self).contains other

/-- `UserProfile.has_sent_request_to`: a pending FriendRequest row
(sender=self, receiver=receiver) exists. -/
def has_sent_request_to (w : World) (self receiver : Nat) : Bool :=
  w.requests.contains (self, receiver)

/-- `self.friends.add(other)` on the symmetrical M2M: inserts the edge in
both directions when absent, otherwise leaves the table unchanged. -/
def addFriendEdge (w : World) (a b : Nat) : World :=
  { w with friends :=
      if w.friends.contains (a, b) then w.friends
      else (a, b) :: (b, a) :: w.friends }

/-- `UserProfile.send_friend_request`: creates a pending request unless one
already exists in this direction or the two profiles are already friends.
There is no check against `self == receiver_profile`. -/
def send_friend_request (w : World) (self receiver : Nat) : World :=
  if !(has_sent_request_to w self receiver) && !(is_friends_with w self receiver) then
    { w with requests := w.requests ++ [(self, receiver)] }
  else w

/-- `UserProfile.accept_friend_request` (self accepting sender's request):
if the request exists, add the friendship edge from both sides and delete
all FriendRequest rows (sender=sender, receiver=self). -/
def accept_friend_request (w : World) (self sender : Nat) : World :=
  if has_sent_request_to w sender self then
    let w1 := addFriendEdge w self sender
    let w2 := addFriendEdge w1 sender self
    { w2 with requests := w2.requests.filter (fun r => !(r.1 == sender && r.2 == self)) }
  else w

/-- `UserProfile.reject_friend_request`: delete the pending request if present. -/
def reject_friend_request (w : World) (self sender : Nat) : World :=
  { w with requests := w.requests.filter (fun r => !(r.1 == sender && r.2 == self)) }

end UserProfile

namespace PrivacySettingsModel

def PRIVATE : String := "private"

def FRIENDS : String := "friends"

def FRIENDS_OF_FRIENDS : String := "friends_of_friends"

/-- `PrivacySettingsModel.is_viewable_by(self, user)`: the single-object
check.  Note that it takes no privacy-level argument. -/
def is_viewable_by (w : World) (self : NodeRec) (user : Nat) : Bool :=
  if self.user == user then true
  else if self.privacy_setting == PRIVATE then false
  else if self.privacy_setting == FRIENDS then
    UserProfile.is_friends_with w user self.user
  else if self.privacy_setting == FRIENDS_OF_FRIENDS then
    if UserProfile.is_friends_with w user self.user then true
    else (friendsOf w user).any (fun f => (friendsOf w self.user).contains f)
  else false

/-- `_get_own_objects_filter`: `Q(user=user)`. -/
def _get_own_objects_filter (user : Nat) : NodeRec → Bool :=
  fun o => o.user == user

/-- `_get_friends_objects_filter`:
`Q(privacy_setting=FRIENDS, user__userprofile__friends=user)`. -/
def _get_friends_objects_filter (w : World) (user : Nat) : NodeRec → Bool :=
  fun o => o.privacy_setting == FRIENDS && (friendsOf w o.user).contains user

/-- `_get_friends_of_friends_objects_filter`:
`Q(privacy_setting=FRIENDS_OF_FRIENDS, user__userprofile__friends__in=user_friends)
 & ~Q(user__in=user_friends)` where `user_friends = user.userprofile.friends.all()`. -/
def _get_friends_of_friends_objects_filter (w : World) (user : Nat) : NodeRec → Bool :=
  fun o => o.privacy_setting == FRIENDS_OF_FRIENDS
    && (friendsOf w o.user).any (fun f => (friendsOf w user).contains f)
    && !((friendsOf w user).contains o.user)

/-- `PrivacySettingsModel.get_privacy_filter(user, level)`: the bulk
predicate, raising ValueError on an unrecognized level. -/
def get_privacy_filter (w : World) (user : Nat) (level : String) :
    Except String (NodeRec → Bool) :=
  if level == "own" then
    Except.ok (fun o => _get_own_objects_filter user o)
  else if level == "friends" then
    Except.ok (fun o => _get_own_objects_filter user o
      || _get_friends_objects_filter w user o)
  else if level == "fof" then
    Except.ok (fun o => _get_own_objects_filter user o
      || _get_friends_objects_filter w user o
      || _get_friends_of_friends_objects_filter w user o)
  else
    Except.error "Invalid level provided."

/-- Whether the bulk filter at the given level selects the object;
an error from `get_privacy_filter` selects nothing. -/
def filter_selects (w : World) (user : Nat) (level : String) (o : NodeRec) : Bool :=
  match get_privacy_filter w user level with
  | Except.ok f => f o
  | Except.error _ => false

end PrivacySettingsModel

instance instDistLeDecRel (dist : NodeRec → Rat) :
    DecidableRel (fun a b : NodeRec => dist a ≤ dist b) :=
  fun a b => inferInstanceAs (Decidable (dist a ≤ dist b))

instance instDistLeTotal (dist : NodeRec → Rat) :
    IsTotal NodeRec (fun a b : NodeRec => dist a ≤ dist b) :=
  ⟨fun a b => le_total (dist a) (dist b)⟩

instance instDistLeTrans (dist : NodeRec → Rat) :
    IsTrans NodeRec (fun a b : NodeRec => dist a ≤ dist b) :=
  ⟨fun _ _ _ hab hbc => le_trans hab hbc⟩

namespace EmbeddableModel

/-- `EmbeddableModel.get_similar_objects`: annotate each candidate with its
cosine distance to the query embedding, keep rows with distance strictly
below `filter_theshold`, order ascending by distance, apply the privacy
filter (the class's `get_privacy_filter` when the class is privacy-gated,
else `Q(user=user)`), apply the optional exclude filter, and finally
truncate to `limit` — Python's `if limit:` skips truncation when `limit`
is 0 or None.  The store-computed cosine distance is the abstract
function `dist`; `objs` is the candidate table. -/
def get_similar_objects (w : World) (objs : List NodeRec) (dist : NodeRec → Rat)
    (user : Nat) (privacyGated : Bool) (exclude_filter : Option (NodeRec → Bool))
    (limit : Option Nat) (filter_theshold : Rat) (privacy_level : String) :
    Except String (List NodeRec) :=
  let queryset := List.insertionSort (fun a b => dist a ≤ dist b)
    (objs.filter (fun o => decide (dist o < filter_theshold)))
  match (if privacyGated then PrivacySettingsModel.get_privacy_filter w user privacy_level
         else Except.ok (fun o => o.user == user)) with
  | Except.error e => Except.error e
  | Except.ok privacy_filter =>
    let q2 := queryset.filter privacy_filter
    let q3 := match exclude_filter with
      | some ex => q2.filter (fun o => !(ex o))
      | none => q2
    let q4 := match limit with
      | some l => if l = 0 then q3 else q3.take l
      | none => q3
    Except.ok q4

end EmbeddableModel

namespace NodeModel

/-- `NodeModel.related_nodes_filter(self, other_model_class)`: the exclusion
Q object, evaluated over candidates from the `other_model_kind` table.
The first two disjuncts join through the candidate's generic relations
`source_links` / `target_links` (links whose source resp. target is the
candidate row, i.e. content type = the candidate table's content type and
object id = the candidate's pk) and re-check that content type; they hold
as soon as the candidate is the source resp. target of any link at all.
When the candidate class is Link, candidate links having `self` as their
own source or target are also excluded; when `self` is an instance of the
candidate class, `self`'s own pk is excluded. -/
def related_nodes_filter (w : World) (self : NodeRef) (other_model_kind : Kind)
    (cand : NodeRef) : Bool :=
  (w.links.any (fun l => l.source_content_type == other_model_kind
      && l.source_object_id == cand.id
      && l.source_content_type == other_model_kind))
  || (w.links.any (fun l => l.target_content_type == other_model_kind
      && l.target_object_id == cand.id
      && l.target_content_type == other_model_kind))
  || (if other_model_kind == Kind.link then
        (w.links.any (fun l => l.id == cand.id
          && l.source_content_type == self.kind && l.source_object_id == self.id))
        || (w.links.any (fun l => l.id == cand.id
          && l.target_content_type == self.kind && l.target_object_id == self.id))
      else false)
  || (if self.kind == other_model_kind then cand.id == self.id else false)

end NodeModel

namespace Link

/-- `Link.related_nodes_filter`: the inherited exclusion conditions plus, for
each of the link's own endpoints whose class is the candidate class, that
endpoint's pk. -/
def related_nodes_filter (w : World) (self : LinkRec) (other_model_kind : Kind)
    (cand : NodeRef) : Bool :=
  NodeModel.related_nodes_filter w ⟨Kind.link, self.id⟩ other_model_kind cand
  || (if self.source_content_type == other_model_kind
      then cand.id == self.source_object_id else false)
  || (if self.target_content_type == other_model_kind
      then cand.id == self.target_object_id else false)

/-- `Link.get_privacy_filter(user, privacy_level)`: for each of the content
types memo, reference, inkling, links whose source and target both have
that content type and whose source and target ids are in the set of rows
of that table passing the node-level privacy filter; the disjunction over
the three content types. -/
def get_privacy_filter (w : World) (user : Nat) (privacy_level : String) :
    Except String (LinkRec → Bool) :=
  match PrivacySettingsModel.get_privacy_filter w user privacy_level with
  | Except.error e => Except.error e
  | Except.ok model_filter =>
    Except.ok (fun l =>
      [Kind.memo, Kind.reference, Kind.inkling].any (fun content_type =>
        let visible_ids :=
          ((w.nodes.filter (fun n => n.kind == content_type && model_filter n)).map
            (fun n => n.id))
        l.source_content_type == content_type
          && visible_ids.contains l.source_object_id
          && l.target_content_type == content_type
          && visible_ids.contains l.target_object_id))

/-- Whether the bulk link filter at the given level selects the link row;
an error from `Link.get_privacy_filter` selects nothing. -/
def link_filter_selects (w : World) (user : Nat) (privacy_level : String)
    (l : LinkRec) : Bool :=
  match get_privacy_filter w user privacy_level with
  | Except.ok f => f l
  | Except.error _ => false

/-- Dispatch of `obj.is_viewable_by(user, privacy_level)` on a node
reference, as Python resolves it.  When the reference is a Link, this is
`Link.is_viewable_by`, which looks up its endpoints and recurses with the
level argument; when it is a content node, the resolved method is
`PrivacySettingsModel.is_viewable_by(self, user)`, which accepts no level
argument, so the call raises TypeError.  `fuel` bounds the recursion
depth, standing for the Python interpreter's recursion limit. -/
def is_viewable_by_dispatch (w : World) :
    Nat → NodeRef → Nat → String → Except String Bool
  | 0, _, _, _ => Except.error "RecursionError: maximum recursion depth exceeded"
  | fuel + 1, ref, user, privacy_level =>
    if ref.kind == Kind.link then
      match w.links.find? (fun l => l.id == ref.id) with
      | none => Except.error "AttributeError: NoneType object has no attribute is_viewable_by"
      | some l =>
        match is_viewable_by_dispatch w fuel
            ⟨l.source_content_type, l.source_object_id⟩ user privacy_level with
        | Except.error e => Except.error e
        | Except.ok s =>
          if s then
            is_viewable_by_dispatch w fuel
              ⟨l.target_content_type, l.target_object_id⟩ user privacy_level
          else Except.ok false
    else
      Except.error "TypeError: is_viewable_by() takes 2 positional arguments but 3 were given"

/-- `Link.is_viewable_by(self, user, privacy_level='fof')`:
`source.is_viewable_by(user, level) and target.is_viewable_by(user, level)`. -/
def is_viewable_by (w : World) (fuel : Nat) (linkId user : Nat)
    (privacy_level : String) : Except String Bool :=
  is_viewable_by_dispatch w (fuel + 1) ⟨Kind.link, linkId⟩ user privacy_level

end Link

/-! ### Helper lemmas -/

lemma mem_friendsOf {w : World} {a b : Nat} :
    b ∈ friendsOf w a ↔ (a, b) ∈ w.friends := by
  simp only [friendsOf, List.mem_map, List.mem_filter, beq_iff_eq]
  constructor
  · rintro ⟨⟨x, y⟩, ⟨hm, hx⟩, hy⟩
    simp only at hx hy
    subst hx; subst hy; exact hm
  · intro h
    exact ⟨(a, b), ⟨h, rfl⟩, rfl⟩

lemma is_friends_with_true_iff {w : World} {a b : Nat} :
    UserProfile.is_friends_with w a b = true ↔ (a, b) ∈ w.friends := by
  simp [UserProfile.is_friends_with, List.elem_iff, mem_friendsOf]

lemma addFriendEdge_mem_self (w : World) (a b : Nat) :
    (a, b) ∈ (UserProfile.addFriendEdge w a b).friends := by
  by_cases hm : (a, b) ∈ w.friends <;>
    simp [UserProfile.addFriendEdge, List.elem_iff, hm]

lemma addFriendEdge_mem_mono {w : World} {a b : Nat} {p : Nat × Nat}
    (h : p ∈ w.friends) : p ∈ (UserProfile.addFriendEdge w a b).friends := by
  by_cases hm : (a, b) ∈ w.friends <;>
    simp [UserProfile.addFriendEdge, List.elem_iff, hm, h]

lemma addFriendEdge_requests (w : World) (a b : Nat) :
    (UserProfile.addFriendEdge w a b).requests = w.requests := rfl

/-! ### C4: self-targeted friend request -/

/-- C4: the claim says `send_friend_request` with sender equal to receiver
fails with `InvalidRequest` and creates no pending request.  The code has
no self-check: in the empty state, user 1 sending a request to user 1
silently creates the pending self-request (1, 1). -/
theorem send_friend_request_self_creates_request :
    (UserProfile.send_friend_request ⟨[], [], [], []⟩ 1 1).requests = [(1, 1)] := rfl

/-! ### C5: accepting a friend request -/

/-- C5: if a pending request from A to B exists, then after B accepts it,
A and B are friends in both directions and the request is gone. -/
theorem accept_friend_request_establishes_friendship (w : World) (A B : Nat)
    (h : UserProfile.has_sent_request_to w A B = true) :
    UserProfile.is_friends_with (UserProfile.accept_friend_request w B A) A B = true
    ∧ UserProfile.is_friends_with (UserProfile.accept_friend_request w B A) B A = true
    ∧ UserProfile.has_sent_request_to (UserProfile.accept_friend_request w B A) A B = false := by
  unfold UserProfile.accept_friend_request
  rw [if_pos h]
  refine ⟨?_, ?_, ?_⟩
  · exact is_friends_with_true_iff.mpr
      (addFriendEdge_mem_self (UserProfile.addFriendEdge w B A) A B)
  · exact is_friends_with_true_iff.mpr
      (addFriendEdge_mem_mono (addFriendEdge_mem_self w B A))
  · simp only [UserProfile.has_sent_request_to, addFriendEdge_requests]
    simp [List.elem_iff, List.mem_filter]

/-- Witness for C5: in a state holding exactly the pending request (1, 2),
user 2 accepting user 1's request makes 1 and 2 mutual friends and
removes the request. -/
theorem accept_friend_request_establishes_friendship_witness :
    UserProfile.has_sent_request_to ⟨[], [], [], [(1, 2)]⟩ 1 2 = true
    ∧ (UserProfile.is_friends_with
        (UserProfile.accept_friend_request ⟨[], [], [], [(1, 2)]⟩ 2 1) 1 2 = true
      ∧ UserProfile.is_friends_with
        (UserProfile.accept_friend_request ⟨[], [], [], [(1, 2)]⟩ 2 1) 2 1 = true
      ∧ UserProfile.has_sent_request_to
        (UserProfile.accept_friend_request ⟨[], [], [], [(1, 2)]⟩ 2 1) 1 2 = false) :=
  ⟨by decide, accept_friend_request_establishes_friendship ⟨[], [], [], [(1, 2)]⟩ 1 2 (by decide)⟩

/-! ### C1: single-object check versus bulk filter -/

/-- C1 counterexample: owner 1 and viewer 2 are direct friends and node 1
(owned by 1) has privacy friends_of_friends.  The single-object check
returns true (the direct-friend branch of the FRIENDS_OF_FRIENDS case),
but the bulk filter at level fof does not select the node: its friends
clause requires privacy FRIENDS and its fof clause excludes owners who
are direct friends of the viewer.  So the two operations disagree at the
same viewer even for level fof, refuting the claim as stated. -/
theorem is_viewable_by_vs_filter_counterexample :
    PrivacySettingsModel.is_viewable_by ⟨[(1, 2), (2, 1)], [], [], []⟩
        ⟨1, 1, "friends_of_friends", Kind.memo⟩ 2 = true
    ∧ PrivacySettingsModel.filter_selects ⟨[(1, 2), (2, 1)], [], [], []⟩ 2 "fof"
        ⟨1, 1, "friends_of_friends", Kind.memo⟩ = false := by decide

/-- C1 amended: `is_viewable_by` takes no level argument; on any state with
a symmetric friends table it agrees with the bulk filter at level fof
except that it additionally admits FRIENDS_OF_FRIENDS nodes whose owner
is a direct friend of the viewer. -/
theorem is_viewable_by_eq_fof_filter_or_friend_fof (w : World) (o : NodeRec) (u : Nat)
    (hsym : ∀ p ∈ w.friends, (p.2, p.1) ∈ w.friends) :
    PrivacySettingsModel.is_viewable_by w o u
      = (PrivacySettingsModel.filter_selects w u "fof" o
        || (o.privacy_setting == PrivacySettingsModel.FRIENDS_OF_FRIENDS
            && UserProfile.is_friends_with w u o.user)) := by
  have hsym2 : ∀ a b : Nat, (a, b) ∈ w.friends ↔ (b, a) ∈ w.friends :=
    fun a b => ⟨fun h => hsym (a, b) h, fun h => hsym (b, a) h⟩
  have hF : UserProfile.is_friends_with w u o.user
      = ((friendsOf w o.user).contains u) := by
    apply Bool.coe_iff_coe.mp
    rw [is_friends_with_true_iff]
    rw [show ((friendsOf w o.user).contains u = true) ↔ u ∈ friendsOf w o.user from
      List.elem_iff]
    rw [mem_friendsOf]
    exact hsym2 u o.user
  have hany : ((friendsOf w u).any (fun f => (friendsOf w o.user).contains f))
      = ((friendsOf w o.user).any (fun f => (friendsOf w u).contains f)) := by
    apply Bool.coe_iff_coe.mp
    simp only [List.any_eq_true, List.elem_iff]
    exact ⟨fun ⟨x, h1, h2⟩ => ⟨x, h2, h1⟩, fun ⟨x, h1, h2⟩ => ⟨x, h2, h1⟩⟩
  have eR : PrivacySettingsModel.filter_selects w u "fof" o
      = (PrivacySettingsModel._get_own_objects_filter u o
        || PrivacySettingsModel._get_friends_objects_filter w u o
        || PrivacySettingsModel._get_friends_of_friends_objects_filter w u o) := rfl
  rw [eR]
  unfold PrivacySettingsModel.is_viewable_by
    PrivacySettingsModel._get_own_objects_filter
    PrivacySettingsModel._get_friends_objects_filter
    PrivacySettingsModel._get_friends_of_friends_objects_filter
  by_cases h1 : o.user = u
  · simp [h1]
  · have h1b : (o.user == u) = false := by simp [h1]
    by_cases hp1 : o.privacy_setting = "private"
    · simp [PrivacySettingsModel.PRIVATE, PrivacySettingsModel.FRIENDS,
        PrivacySettingsModel.FRIENDS_OF_FRIENDS, h1b, hp1]
    · by_cases hp2 : o.privacy_setting = "friends"
      · simp [PrivacySettingsModel.PRIVATE, PrivacySettingsModel.FRIENDS,
          PrivacySettingsModel.FRIENDS_OF_FRIENDS, h1b, hp2, hF]
      · by_cases hp3 : o.privacy_setting = "friends_of_friends"
        · by_cases hf : UserProfile.is_friends_with w u o.user = true
          · have hf2 : ((friendsOf w u).contains o.user) = true := hf
            simp [PrivacySettingsModel.PRIVATE, PrivacySettingsModel.FRIENDS,
              PrivacySettingsModel.FRIENDS_OF_FRIENDS, h1b, hp3, hf, hf2]
          · have hf1 : UserProfile.is_friends_with w u o.user = false :=
              Bool.eq_false_iff.mpr hf
            have hd : decide (o.user ∈ friendsOf w u) = false := by
              simpa [UserProfile.is_friends_with] using hf1
            have hany2 : ((friendsOf w u).any fun f => decide (f ∈ friendsOf w o.user))
                = ((friendsOf w o.user).any fun f => decide (f ∈ friendsOf w u)) := by
              simpa using hany
            simp [PrivacySettingsModel.PRIVATE, PrivacySettingsModel.FRIENDS,
              PrivacySettingsModel.FRIENDS_OF_FRIENDS, UserProfile.is_friends_with,
              h1b, hp3, hd, hany2]
        · simp [PrivacySettingsModel.PRIVATE, PrivacySettingsModel.FRIENDS,
            PrivacySettingsModel.FRIENDS_OF_FRIENDS, h1b, hp1, hp2, hp3]

/-- Witness for C1 amended: viewer 2, owner 1, no friendship rows: a
FRIENDS_OF_FRIENDS node owned by 1 is neither viewable by 2 nor selected
by the fof filter, and the two sides of the amended equation agree. -/
theorem is_viewable_by_eq_fof_filter_witness :
    (∀ p ∈ ([] : List (Nat × Nat)), (p.2, p.1) ∈ ([] : List (Nat × Nat)))
    ∧ PrivacySettingsModel.is_viewable_by ⟨[], [], [], []⟩
        ⟨1, 1, "friends_of_friends", Kind.memo⟩ 2
      = (PrivacySettingsModel.filter_selects ⟨[], [], [], []⟩ 2 "fof"
          ⟨1, 1, "friends_of_friends", Kind.memo⟩
        || (NodeRec.privacy_setting ⟨1, 1, "friends_of_friends", Kind.memo⟩
              == PrivacySettingsModel.FRIENDS_OF_FRIENDS
            && UserProfile.is_friends_with ⟨[], [], [], []⟩ 2 1)) :=
  ⟨by decide,
    is_viewable_by_eq_fof_filter_or_friend_fof ⟨[], [], [], []⟩
      ⟨1, 1, "friends_of_friends", Kind.memo⟩ 2 (by decide)⟩

/-! ### C8: unrecognized privacy level -/

/-- C8: requesting the visibility predicate for any level tag other than
own, friends, fof fails with the unknown-privacy-level error. -/
theorem get_privacy_filter_unknown_level (w : World) (user : Nat) (level : String)
    (h1 : level ≠ "own") (h2 : level ≠ "friends") (h3 : level ≠ "fof") :
    PrivacySettingsModel.get_privacy_filter w user level
      = Except.error "Invalid level provided." := by
  simp [PrivacySettingsModel.get_privacy_filter, h1, h2, h3]

/-- Witness for C8: the level tag "bogus" is rejected. -/
theorem get_privacy_filter_unknown_level_witness :
    ("bogus" ≠ "own" ∧ "bogus" ≠ "friends" ∧ "bogus" ≠ "fof")
    ∧ PrivacySettingsModel.get_privacy_filter ⟨[], [], [], []⟩ 1 "bogus"
        = Except.error "Invalid level provided." :=
  ⟨⟨by decide, by decide, by decide⟩,
    get_privacy_filter_unknown_level ⟨[], [], [], []⟩ 1 "bogus"
      (by decide) (by decide) (by decide)⟩

/-! ### C2: link visibility conjunction -/

/-- C2: the claim (and the docstring of `Link.get_privacy_filter`) says a
link is viewable iff both endpoints are independently viewable.  The
implementation of `Link.is_viewable_by` passes the privacy level on to
the endpoint's `is_viewable_by`, but the node-level method accepts no
level argument, so the call raises TypeError instead of computing the
conjunction: here a link between two memos both owned by the viewer
(both endpoints trivially viewable) raises. -/
theorem Link_is_viewable_by_raises_type_error :
    Link.is_viewable_by
        ⟨[], [⟨1, 1, "private", Kind.memo⟩, ⟨2, 1, "private", Kind.memo⟩],
          [⟨1, Kind.memo, 1, Kind.memo, 2, 1, "private"⟩], []⟩ 100 1 1 "fof"
      = Except.error "TypeError: is_viewable_by() takes 2 positional arguments but 3 were given" := rfl

/-! ### C7 and C10: the related-nodes exclusion filter -/

lemma related_filter_excludes_endpoint {w : World} {self : NodeRef} {otherK : Kind}
    {cand : NodeRef} (hk : cand.kind = otherK)
    (h : ∃ l ∈ w.links,
      (l.source_content_type = cand.kind ∧ l.source_object_id = cand.id)
      ∨ (l.target_content_type = cand.kind ∧ l.target_object_id = cand.id)) :
    NodeModel.related_nodes_filter w self otherK cand = true := by
  obtain ⟨l, hmem, hcase⟩ := h
  unfold NodeModel.related_nodes_filter
  rcases hcase with ⟨h1, h2⟩ | ⟨h1, h2⟩
  · have hx : w.links.any (fun l => l.source_content_type == otherK
        && l.source_object_id == cand.id && l.source_content_type == otherK) = true :=
      List.any_eq_true.mpr ⟨l, hmem, by simp [h1, h2, ← hk]⟩
    simp [hx]
  · have hx : w.links.any (fun l => l.target_content_type == otherK
        && l.target_object_id == cand.id && l.target_content_type == otherK) = true :=
      List.any_eq_true.mpr ⟨l, hmem, by simp [h1, h2, ← hk]⟩
    simp [hx]

/-- C10: the exclusion predicate built by `related_nodes_filter` excludes
every candidate of the requested kind that is the source or target of any
link in the store, whether or not the link touches `n`. -/
theorem related_nodes_filter_excludes_any_endpoint (w : World) (n : NodeRef)
    (otherK : Kind) (cand : NodeRef) (hk : cand.kind = otherK)
    (h : ∃ l ∈ w.links,
      (l.source_content_type = cand.kind ∧ l.source_object_id = cand.id)
      ∨ (l.target_content_type = cand.kind ∧ l.target_object_id = cand.id)) :
    NodeModel.related_nodes_filter w n otherK cand = true :=
  related_filter_excludes_endpoint hk h

/-- Witness for C10: memo 2 is an endpoint of the link memo 2 → memo 3,
which does not touch memo 1; the filter built for memo 1 still excludes
memo 2. -/
theorem related_nodes_filter_excludes_any_endpoint_witness :
    ((⟨Kind.memo, 2⟩ : NodeRef).kind = Kind.memo
      ∧ ∃ l ∈ (⟨[], [], [⟨1, Kind.memo, 2, Kind.memo, 3, 1, "private"⟩], []⟩ : World).links,
          (l.source_content_type = (⟨Kind.memo, 2⟩ : NodeRef).kind
            ∧ l.source_object_id = (⟨Kind.memo, 2⟩ : NodeRef).id)
          ∨ (l.target_content_type = (⟨Kind.memo, 2⟩ : NodeRef).kind
            ∧ l.target_object_id = (⟨Kind.memo, 2⟩ : NodeRef).id))
    ∧ NodeModel.related_nodes_filter
        ⟨[], [], [⟨1, Kind.memo, 2, Kind.memo, 3, 1, "private"⟩], []⟩
        ⟨Kind.memo, 1⟩ Kind.memo ⟨Kind.memo, 2⟩ = true :=
  ⟨⟨by decide, by decide⟩,
    related_nodes_filter_excludes_any_endpoint
      ⟨[], [], [⟨1, Kind.memo, 2, Kind.memo, 3, 1, "private"⟩], []⟩
      ⟨Kind.memo, 1⟩ Kind.memo ⟨Kind.memo, 2⟩ (by decide) (by decide)⟩

/-- C7: a candidate of the requested kind that is an endpoint of an
existing link touching the node is excluded.  The two halves are
independently quantified implications: for every content node `n` whose
links include one ending at the candidate, `NodeModel.related_nodes_filter`
excludes the candidate; and for every link `selfLink` (node reference
(link, selfLink.id)) whose links include one ending at the candidate,
`Link.related_nodes_filter` excludes the candidate. -/
theorem related_nodes_filter_excludes_already_linked (w : World) (otherK : Kind)
    (cand : NodeRef) (hk : cand.kind = otherK) :
    (∀ n : NodeRef,
      (∃ l ∈ w.links,
        ((l.source_content_type = n.kind ∧ l.source_object_id = n.id)
          ∨ (l.target_content_type = n.kind ∧ l.target_object_id = n.id))
        ∧ ((l.source_content_type = cand.kind ∧ l.source_object_id = cand.id)
          ∨ (l.target_content_type = cand.kind ∧ l.target_object_id = cand.id))) →
      NodeModel.related_nodes_filter w n otherK cand = true)
    ∧ (∀ selfLink : LinkRec,
      (∃ l ∈ w.links,
        ((l.source_content_type = Kind.link ∧ l.source_object_id = selfLink.id)
          ∨ (l.target_content_type = Kind.link ∧ l.target_object_id = selfLink.id))
        ∧ ((l.source_content_type = cand.kind ∧ l.source_object_id = cand.id)
          ∨ (l.target_content_type = cand.kind ∧ l.target_object_id = cand.id))) →
      Link.related_nodes_filter w selfLink otherK cand = true) := by
  constructor
  · intro n h1
    obtain ⟨l, hm, _, he⟩ := h1
    exact related_filter_excludes_endpoint hk ⟨l, hm, he⟩
  · intro selfLink h2
    obtain ⟨l, hm, _, he⟩ := h2
    unfold Link.related_nodes_filter
    have hx : NodeModel.related_nodes_filter w ⟨Kind.link, selfLink.id⟩ otherK cand = true :=
      related_filter_excludes_endpoint hk ⟨l, hm, he⟩
    simp [hx]

/-- Witness for C7: memo 2 is linked to memo 1 (link 1) and to link 9
(link 2); the exclusion filters for memo 1 and for link 9 both exclude
memo 2. -/
theorem related_nodes_filter_excludes_already_linked_witness :
    ((⟨Kind.memo, 2⟩ : NodeRef).kind = Kind.memo
      ∧ (∃ l ∈ (⟨[], [], [⟨1, Kind.memo, 1, Kind.memo, 2, 1, "private"⟩,
            ⟨2, Kind.link, 9, Kind.memo, 2, 1, "private"⟩], []⟩ : World).links,
          ((l.source_content_type = (⟨Kind.memo, 1⟩ : NodeRef).kind
            ∧ l.source_object_id = (⟨Kind.memo, 1⟩ : NodeRef).id)
            ∨ (l.target_content_type = (⟨Kind.memo, 1⟩ : NodeRef).kind
            ∧ l.target_object_id = (⟨Kind.memo, 1⟩ : NodeRef).id))
          ∧ ((l.source_content_type = Kind.memo ∧ l.source_object_id = 2)
            ∨ (l.target_content_type = Kind.memo ∧ l.target_object_id = 2)))
      ∧ (∃ l ∈ (⟨[], [], [⟨1, Kind.memo, 1, Kind.memo, 2, 1, "private"⟩,
            ⟨2, Kind.link, 9, Kind.memo, 2, 1, "private"⟩], []⟩ : World).links,
          ((l.source_content_type = Kind.link ∧ l.source_object_id = 9)
            ∨ (l.target_content_type = Kind.link ∧ l.target_object_id = 9))
          ∧ ((l.source_content_type = Kind.memo ∧ l.source_object_id = 2)
            ∨ (l.target_content_type = Kind.memo ∧ l.target_object_id = 2))))
    ∧ (NodeModel.related_nodes_filter
        ⟨[], [], [⟨1, Kind.memo, 1, Kind.memo, 2, 1, "private"⟩,
          ⟨2, Kind.link, 9, Kind.memo, 2, 1, "private"⟩], []⟩
        ⟨Kind.memo, 1⟩ Kind.memo ⟨Kind.memo, 2⟩ = true
      ∧ Link.related_nodes_filter
        ⟨[], [], [⟨1, Kind.memo, 1, Kind.memo, 2, 1, "private"⟩,
          ⟨2, Kind.link, 9, Kind.memo, 2, 1, "private"⟩], []⟩
        ⟨9, Kind.memo, 5, Kind.memo, 6, 1, "private"⟩ Kind.memo ⟨Kind.memo, 2⟩ = true) :=
  ⟨⟨by decide, by decide, by decide⟩,
    ⟨(related_nodes_filter_excludes_already_linked
        ⟨[], [], [⟨1, Kind.memo, 1, Kind.memo, 2, 1, "private"⟩,
          ⟨2, Kind.link, 9, Kind.memo, 2, 1, "private"⟩], []⟩
        Kind.memo ⟨Kind.memo, 2⟩ (by decide)).1 ⟨Kind.memo, 1⟩ (by decide),
      (related_nodes_filter_excludes_already_linked
        ⟨[], [], [⟨1, Kind.memo, 1, Kind.memo, 2, 1, "private"⟩,
          ⟨2, Kind.link, 9, Kind.memo, 2, 1, "private"⟩], []⟩
        Kind.memo ⟨Kind.memo, 2⟩ (by decide)).2
        ⟨9, Kind.memo, 5, Kind.memo, 6, 1, "private"⟩ (by decide)⟩⟩

/-! ### C9: bulk link filter only selects same-kind content-node endpoints -/

/-- C9: any link selected by the bulk link filter has source and target of
the same content type, and that content type is one of memo, reference,
inkling — in particular never Link. -/
theorem link_filter_selects_same_kind (w : World) (user : Nat) (level : String)
    (l : LinkRec) (h : Link.link_filter_selects w user level l = true) :
    l.source_content_type = l.target_content_type
    ∧ (l.source_content_type = Kind.memo ∨ l.source_content_type = Kind.reference
      ∨ l.source_content_type = Kind.inkling) := by
  unfold Link.link_filter_selects Link.get_privacy_filter at h
  cases hpf : PrivacySettingsModel.get_privacy_filter w user level with
  | error e => rw [hpf] at h; simp at h
  | ok nf =>
    rw [hpf] at h
    simp only [List.any_eq_true, List.mem_cons, List.not_mem_nil, or_false,
      Bool.and_eq_true, beq_iff_eq] at h
    obtain ⟨ct, hct, ⟨⟨⟨hs, _⟩, ht⟩, _⟩⟩ := h
    refine ⟨hs.trans ht.symm, ?_⟩
    rw [hs]
    rcases hct with rfl | rfl | rfl
    · exact Or.inl rfl
    · exact Or.inr (Or.inl rfl)
    · exact Or.inr (Or.inr rfl)

/-- Witness for C9: with a single memo owned by user 1, the link whose two
endpoints are that memo is selected at level own, and its endpoints have
the same, content-node kind. -/
theorem link_filter_selects_same_kind_witness :
    Link.link_filter_selects ⟨[], [⟨1, 1, "private", Kind.memo⟩], [], []⟩ 1 "own"
        ⟨1, Kind.memo, 1, Kind.memo, 1, 1, "private"⟩ = true
    ∧ ((⟨1, Kind.memo, 1, Kind.memo, 1, 1, "private"⟩ : LinkRec).source_content_type
        = (⟨1, Kind.memo, 1, Kind.memo, 1, 1, "private"⟩ : LinkRec).target_content_type
      ∧ ((⟨1, Kind.memo, 1, Kind.memo, 1, 1, "private"⟩ : LinkRec).source_content_type = Kind.memo
        ∨ (⟨1, Kind.memo, 1, Kind.memo, 1, 1, "private"⟩ : LinkRec).source_content_type = Kind.reference
        ∨ (⟨1, Kind.memo, 1, Kind.memo, 1, 1, "private"⟩ : LinkRec).source_content_type = Kind.inkling)) :=
  ⟨by decide,
    link_filter_selects_same_kind ⟨[], [⟨1, 1, "private", Kind.memo⟩], [], []⟩ 1 "own"
      ⟨1, Kind.memo, 1, Kind.memo, 1, 1, "private"⟩ (by decide)⟩

/-! ### C6: monotonicity of the bulk filter across levels -/

/-- C6: every node selected at level own is selected at level friends, and
every node selected at level friends is selected at level fof. -/
theorem get_privacy_filter_monotone (w : World) (user : Nat) (o : NodeRec) :
    (PrivacySettingsModel.filter_selects w user "own" o = true →
      PrivacySettingsModel.filter_selects w user "friends" o = true)
    ∧ (PrivacySettingsModel.filter_selects w user "friends" o = true →
      PrivacySettingsModel.filter_selects w user "fof" o = true) := by
  have e0 : PrivacySettingsModel.filter_selects w user "own" o
      = PrivacySettingsModel._get_own_objects_filter user o := rfl
  have e1 : PrivacySettingsModel.filter_selects w user "friends" o
      = (PrivacySettingsModel._get_own_objects_filter user o
        || PrivacySettingsModel._get_friends_objects_filter w user o) := rfl
  have e2 : PrivacySettingsModel.filter_selects w user "fof" o
      = (PrivacySettingsModel._get_own_objects_filter user o
        || PrivacySettingsModel._get_friends_objects_filter w user o
        || PrivacySettingsModel._get_friends_of_friends_objects_filter w user o) := rfl
  rw [e0, e1, e2]
  constructor
  · intro h; simp [h]
  · intro h
    simp only [Bool.or_eq_true] at h
    rcases h with h' | h' <;> simp [h']

/-- Witness for C6: a private node owned by the viewer is selected at
level own, hence also at level friends. -/
theorem get_privacy_filter_monotone_witness :
    PrivacySettingsModel.filter_selects ⟨[], [], [], []⟩ 1 "own" ⟨1, 1, "private", Kind.memo⟩ = true
    ∧ PrivacySettingsModel.filter_selects ⟨[], [], [], []⟩ 1 "friends" ⟨1, 1, "private", Kind.memo⟩ = true :=
  ⟨by decide,
    (get_privacy_filter_monotone ⟨[], [], [], []⟩ 1 ⟨1, 1, "private", Kind.memo⟩).1 (by decide)⟩

/-! ### C3: similarity search output -/

lemma sorted_mem_take_props (dist : NodeRec → Rat) (thr : Rat) (q : List NodeRec)
    (hs : List.Sorted (fun a b => dist a ≤ dist b) q) (hm : ∀ o ∈ q, dist o < thr)
    (limit : Option Nat) :
    List.Sorted (fun a b => dist a ≤ dist b)
        (match limit with | some l => if l = 0 then q else q.take l | none => q)
    ∧ (∀ o ∈ (match limit with | some l => if l = 0 then q else q.take l | none => q),
        dist o < thr)
    ∧ (∀ l, limit = some l → l ≠ 0 →
        (match limit with | some l => if l = 0 then q else q.take l | none => q).length ≤ l) := by
  cases limit with
  | none => exact ⟨hs, hm, fun l hl => nomatch hl⟩
  | some l =>
    dsimp only
    by_cases hl0 : l = 0
    · subst hl0
      rw [if_pos rfl]
      refine ⟨hs, hm, fun l' hl' hne => ?_⟩
      injection hl' with hinj
      exact absurd hinj.symm hne
    · rw [if_neg hl0]
      refine ⟨List.Pairwise.take hs, fun o ho => hm o (List.take_subset _ _ ho),
        fun l' hl' _ => ?_⟩
      injection hl' with hinj
      subst hinj
      exact List.length_take_le _ _

/-- C3 amended: whenever `get_similar_objects` returns a result list, that
list is sorted by non-decreasing distance, every member's distance is
strictly below the threshold, and when a nonzero limit was given the list
has at most that many elements (Python's `if limit:` treats a limit of 0
as no limit at all). -/
theorem get_similar_objects_sorted_threshold_limit
    (w : World) (objs : List NodeRec) (dist : NodeRec → Rat) (user : Nat)
    (pg : Bool) (ex : Option (NodeRec → Bool)) (limit : Option Nat)
    (thr : Rat) (level : String) (res : List NodeRec)
    (h : EmbeddableModel.get_similar_objects w objs dist user pg ex limit thr level
      = Except.ok res) :
    List.Sorted (fun a b => dist a ≤ dist b) res
    ∧ (∀ o ∈ res, dist o < thr)
    ∧ (∀ l, limit = some l → l ≠ 0 → res.length ≤ l) := by
  unfold EmbeddableModel.get_similar_objects at h
  cases hpf : (if pg then PrivacySettingsModel.get_privacy_filter w user level
      else Except.ok (fun o => o.user == user)) with
  | error e =>
    rw [hpf] at h
    exact absurd h (by simp)
  | ok pf =>
    rw [hpf] at h
    simp only [Except.ok.injEq] at h
    subst h
    have hq2s : List.Sorted (fun a b => dist a ≤ dist b)
        ((List.insertionSort (fun a b => dist a ≤ dist b)
          (objs.filter (fun o => decide (dist o < thr)))).filter pf) :=
      List.Pairwise.filter pf (List.sorted_insertionSort _ _)
    have hq2m : ∀ o ∈ (List.insertionSort (fun a b => dist a ≤ dist b)
        (objs.filter (fun o => decide (dist o < thr)))).filter pf, dist o < thr := by
      intro o ho
      have hb := (List.mem_filter.mp ho).1
      rw [List.mem_insertionSort] at hb
      exact of_decide_eq_true (List.mem_filter.mp hb).2
    cases ex with
    | none => exact sorted_mem_take_props dist thr _ hq2s hq2m limit
    | some exf =>
      exact sorted_mem_take_props dist thr _
        (List.Pairwise.filter _ hq2s)
        (fun o ho => hq2m o (List.mem_filter.mp ho).1) limit

/-- C3 counterexample: with one candidate at distance 0, threshold 1 and a
given limit of 0, the code returns the full one-element list — Python's
`if limit:` is false for 0, so no truncation happens — violating the
claimed length bound, which demands length at most the given limit 0. -/
theorem get_similar_objects_limit_zero_counterexample :
    EmbeddableModel.get_similar_objects ⟨[], [], [], []⟩ [⟨1, 1, "private", Kind.memo⟩]
        (fun _ => 0) 1 true none (some 0) 1 "own"
      = Except.ok [⟨1, 1, "private", Kind.memo⟩]
    ∧ ¬(([⟨1, 1, "private", Kind.memo⟩] : List NodeRec).length ≤ 0) :=
  ⟨rfl, by decide⟩

/-- Witness for C3 amended: one candidate at distance 0, threshold 1,
limit 2; the call succeeds with a singleton result satisfying the three
properties. -/
theorem get_similar_objects_sorted_threshold_limit_witness :
    EmbeddableModel.get_similar_objects ⟨[], [], [], []⟩ [⟨1, 1, "private", Kind.memo⟩]
        (fun _ => 0) 1 true none (some 2) 1 "own"
      = Except.ok [⟨1, 1, "private", Kind.memo⟩]
    ∧ (List.Sorted (fun a b => (fun _ : NodeRec => (0 : Rat)) a ≤ (fun _ : NodeRec => (0 : Rat)) b)
        [⟨1, 1, "private", Kind.memo⟩]
      ∧ (∀ o ∈ ([⟨1, 1, "private", Kind.memo⟩] : List NodeRec),
          (fun _ : NodeRec => (0 : Rat)) o < 1)
      ∧ (∀ l, (some 2 : Option Nat) = some l → l ≠ 0 →
          ([⟨1, 1, "private", Kind.memo⟩] : List NodeRec).length ≤ l)) :=
  ⟨rfl,
    get_similar_objects_sorted_threshold_limit ⟨[], [], [], []⟩
      [⟨1, 1, "private", Kind.memo⟩] (fun _ => 0) 1 true none (some 2) 1 "own"
      [⟨1, 1, "private", Kind.memo⟩] rfl⟩

end Inklings
